import Mathlib

/-!
Verification of the Wayland global-shortcut session manager
(src/src-tauri/src/hotkey/wayland.rs).

The source is an asynchronous protocol client.  We embed it shallowly:

* every awaited broker operation (portal connect, create_session,
  bind_shortcuts, request.response, receive_activated, join of the old
  listener task) is resolved by an explicit environment value describing
  its outcome, exactly mirroring the match arms of the source;
* the two process-wide atomic flags and the two manager slots become an
  explicit state record (the spec, section 9, prescribes exactly this
  localisation for verification);
* each observable step of the code appends an action to a trace, so that
  ordering claims become statements about trace positions;
* the spawned listener task is embedded as a function from its
  subscription outcome and the sequence of messages its select loop
  receives (activation events, shutdown signal) to its own trace.  The
  deterministic scheduling convention is: at the spawn point the task
  runs up to its first suspension inside the main loop (or to
  termination when it never reaches the loop); the main loop itself is
  driven by the message list, which arrives after register returns.
-/

namespace Wayland

/-- Observable actions of the manager and of the listener task, in the
order the source performs them.  Actions carry no error strings; error
payloads live in the result type. -/
inductive Action : Type
  /-- successful compare_exchange of REGISTRATION_IN_PROGRESS, line 106 -/
  | casAcquire
  /-- RegistrationGuard drop storing false, line 118 -/
  | casRelease
  /-- try_send of the shutdown signal, lines 317 and 343 -/
  | sendShutdown
  /-- join of the previous listener returned Ok(Ok(())), line 325 -/
  | oldTerminated
  /-- join of the previous listener returned Ok(Err(_)), line 328 -/
  | oldPanicked
  /-- join timed out and the task was aborted, line 334 -/
  | oldAborted
  /-- GlobalShortcuts::new() attempt, line 129 -/
  | connect
  /-- shortcuts.create_session() attempt, line 146 -/
  | createSession
  /-- shortcuts.bind_shortcuts(..) attempt, line 172 -/
  | bind
  /-- request.response() read, line 188 -/
  | awaitResponse
  /-- tokio::spawn of the listener task, line 236 -/
  | spawnListener
  /-- shortcuts.receive_activated() inside the task, line 237 -/
  | subscribe
  /-- ready_tx.send(..) inside the task, lines 239 and 244 -/
  | readySent (ok : Bool)
  /-- an activation event was pulled from the stream, line 258 -/
  | eventReceived (id : String)
  /-- the callback ran for a matching id, line 262 -/
  | invokeCallback (id : String)
  /-- the shutdown branch of the select fired, line 265 -/
  | shutdownReceived
  /-- session.close() was invoked, lines 246 and 276 -/
  | closeSession
  /-- the listener task body returned, lines 249 and 282 -/
  | listenerTerminated
deriving DecidableEq, Repr

/-- Outcome of one timeout-wrapped broker step (connect, create, bind):
the outer timeout fired, the inner call failed, or it succeeded. -/
inductive StepResult : Type
  | timeout
  | failure (e : String)
  | ok
deriving DecidableEq, Repr

/-- Outcome of request.response(), line 188: an error string or the list
of bound shortcuts, each a pair of id and trigger_description. -/
inductive RespResult : Type
  | failure (e : String)
  | ok (bounds : List (String × String))
deriving DecidableEq, Repr

/-- Outcome of shortcuts.receive_activated() inside the spawned task. -/
inductive SubResult : Type
  | ok
  | fail (e : String)
deriving DecidableEq, Repr

/-- Outcome of joining the previous listener with a 5 s timeout,
lines 324-336. -/
inductive JoinOutcome : Type
  | clean
  | panicked
  | timedOut
deriving DecidableEq, Repr

/-- One message consumed by the listener select loop, line 257:
either the next activation event of the stream carrying its shortcut id,
or the resolution of shutdown_rx.recv(). -/
inductive Msg : Type
  | event (id : String)
  | shutdown
deriving DecidableEq, Repr

/-- Manager-visible mutable state: the two process-wide atomic flags
(lines 17 and 20) and the two slots of WaylandHotkeyManager (lines
61-63), with the option slots abstracted to their occupancy. -/
structure MState : Type where
  portalUnavailable : Bool
  registrationInProgress : Bool
  shutdownTx : Bool
  listenerHandle : Bool
deriving DecidableEq, Repr

/-- Environment resolving every awaited operation of one register call. -/
structure Env : Type where
  oldJoin : JoinOutcome
  connect : StepResult
  create : StepResult
  bind : StepResult
  response : RespResult
  sub : SubResult
  /-- the readiness oneshot resolved within its 5 s timeout, line 289 -/
  readyInTime : Bool
deriving DecidableEq, Repr

/-- Result of register, one constructor per distinct error return of the
source (each Err(..) string literal), plus the Ok value. -/
inductive RegOutcome : Type
  /-- line 102: sticky-flag fast failure -/
  | errPortalUnavailable
  /-- line 111: concurrent registration rejected -/
  | errInProgress
  /-- line 137: portal connect timed out -/
  | errConnectTimeout
  /-- line 142: portal connect failed -/
  | errConnectFailed (e : String)
  /-- line 154: create_session timed out -/
  | errCreateTimeout
  /-- line 159: create_session failed -/
  | errCreateFailed (e : String)
  /-- line 180: bind_shortcuts timed out -/
  | errBindTimeout
  /-- line 184: bind_shortcuts failed -/
  | errBindFailed (e : String)
  /-- line 195: response error mentioning Other, treated as cancel -/
  | errUserCancelled
  /-- line 198: other response failure -/
  | errResponseFailed (e : String)
  /-- line 294: listener reported subscription failure -/
  | errListenerSub (e : String)
  /-- line 306: success with the optional actual trigger -/
  | ok (actualTrigger : Option String)
deriving DecidableEq, Repr

/-- The check of line 193: the response error string mentions Other. -/
def hasOther (e : String) : Bool :=
  (e.splitOn "Other").length > 1

/-- compare_exchange(false, true) on REGISTRATION_IN_PROGRESS, line 106:
returns whether the exchange succeeded together with the new state. -/
def casRegistration (s : MState) : Bool × MState :=
  if s.registrationInProgress then (false, s)
  else (true, { s with registrationInProgress := true })

/-- reset_portal_state, lines 24-27: clears the sticky flag. -/
def resetPortalState (s : MState) : MState :=
  { s with portalUnavailable := false }

/-- stop_listener, lines 341-348: best-effort try_send of shutdown, then
take both slots without awaiting anything. -/
def stopListener (s : MState) : MState × List Action :=
  ( { s with shutdownTx := false, listenerHandle := false },
    if s.shutdownTx then [Action.sendShutdown] else [] )

/-- unregister, lines 351-353: delegates to stop_listener. -/
def unregister (s : MState) : MState × List Action :=
  stopListener s

/-- stop_listener_and_wait, lines 312-338: try_send of shutdown if a
sender is stored, then join the stored handle with a 5 s timeout,
aborting it when the timeout fires. -/
def stopListenerAndWait (s : MState) (env : Env) : MState × List Action :=
  ( { s with shutdownTx := false, listenerHandle := false },
    (if s.shutdownTx then [Action.sendShutdown] else []) ++
    (if s.listenerHandle then
       match env.oldJoin with
       | JoinOutcome.clean => [Action.oldTerminated]
       | JoinOutcome.panicked => [Action.oldPanicked]
       | JoinOutcome.timedOut => [Action.oldAborted]
     else []) )

/-- Prefix of the spawned listener task up to its first suspension in
the main loop: the receive_activated attempt and the readiness send;
on subscription failure (lines 242-250) also the session close and the
task return, since that path never suspends in the loop. -/
def listenerStart (sub : SubResult) : List Action :=
  match sub with
  | SubResult.ok => [Action.subscribe, Action.readySent true]
  | SubResult.fail _ =>
      [Action.subscribe, Action.readySent false,
       Action.closeSession, Action.listenerTerminated]

/-- The select loop of lines 256-270, driven by the message sequence:
an activation event is logged and dispatches the callback exactly when
its id equals the registered id; the shutdown resolution breaks the
loop.  Returns the loop trace and whether the loop exited.  An exhausted
message list with no shutdown leaves the loop suspended (the stream
branch of the select is disabled on None, so the loop keeps waiting). -/
def processLoop (regId : String) : List Msg → List Action × Bool
  | [] => ([], false)
  | Msg.event id :: rest =>
      let tail := processLoop regId rest
      ( Action.eventReceived id ::
          ((if id = regId then [Action.invokeCallback id] else []) ++ tail.1),
        tail.2 )
  | Msg.shutdown :: _ => ([Action.shutdownReceived], true)

/-- Whole lifetime trace of one spawned listener task, lines 236-283:
the start prefix, then, when the subscription succeeded, the loop trace
and, if the loop exited, the close of lines 272-280 and the task return.
The Bool records whether the task finished. -/
def listenerRun (regId : String) (sub : SubResult) (msgs : List Msg) :
    List Action × Bool :=
  match sub with
  | SubResult.fail _ => (listenerStart sub, true)
  | SubResult.ok =>
      let loop := processLoop regId msgs
      ( listenerStart sub ++ loop.1 ++
          (if loop.2 then [Action.closeSession, Action.listenerTerminated]
           else []),
        loop.2 )

/-- The body of register after the guard is held, lines 128-306:
connect, create_session, bind, response, spawn of the listener
(storing both slots) and the readiness wait.  Returns outcome, state
and trace of this portion. -/
def registerBody (s : MState) (env : Env) (shortcutId : String) :
    RegOutcome × MState × List Action :=
  match env.connect with
  | StepResult.timeout =>
      (RegOutcome.errConnectTimeout,
       { s with portalUnavailable := true }, [Action.connect])
  | StepResult.failure e =>
      (RegOutcome.errConnectFailed e,
       { s with portalUnavailable := true }, [Action.connect])
  | StepResult.ok =>
    match env.create with
    | StepResult.timeout =>
        (RegOutcome.errCreateTimeout,
         { s with portalUnavailable := true },
         [Action.connect, Action.createSession])
    | StepResult.failure e =>
        (RegOutcome.errCreateFailed e,
         { s with portalUnavailable := true },
         [Action.connect, Action.createSession])
    | StepResult.ok =>
      match env.bind with
      | StepResult.timeout =>
          (RegOutcome.errBindTimeout, s,
           [Action.connect, Action.createSession, Action.bind])
      | StepResult.failure e =>
          (RegOutcome.errBindFailed e, s,
           [Action.connect, Action.createSession, Action.bind])
      | StepResult.ok =>
        match env.response with
        | RespResult.failure e =>
            ( if hasOther e then RegOutcome.errUserCancelled
              else RegOutcome.errResponseFailed e,
              s,
              [Action.connect, Action.createSession, Action.bind,
               Action.awaitResponse] )
        | RespResult.ok bounds =>
            let actualTrigger :=
              (bounds.find? (fun b => b.1 == shortcutId)).map (fun b => b.2)
            let s4 := { s with shutdownTx := true, listenerHandle := true }
            let tr :=
              [Action.connect, Action.createSession, Action.bind,
               Action.awaitResponse, Action.spawnListener] ++
              (if env.readyInTime then listenerStart env.sub else [])
            if env.readyInTime then
              match env.sub with
              | SubResult.ok => (RegOutcome.ok actualTrigger, s4, tr)
              | SubResult.fail e => (RegOutcome.errListenerSub e, s4, tr)
            else
              -- line 302: handshake timeout is logged, call still succeeds
              (RegOutcome.ok actualTrigger, s4, tr)

/-- register, lines 84-307: sticky-flag fast path, compare-and-set
guard acquisition, stop-and-await of the previous listener, then the
body; the guard drop clears the in-progress flag on every exit of the
body. -/
def register (s : MState) (env : Env) (shortcutId : String) :
    RegOutcome × MState × List Action :=
  if s.portalUnavailable then
    (RegOutcome.errPortalUnavailable, s, [])
  else
    let cas := casRegistration s
    if !cas.1 then
      (RegOutcome.errInProgress, cas.2, [])
    else
      let stop := stopListenerAndWait cas.2 env
      let body := registerBody stop.1 env shortcutId
      ( body.1,
        { body.2.1 with registrationInProgress := false },
        Action.casAcquire :: stop.2 ++ body.2.2 ++ [Action.casRelease] )

/-- Actions belonging to the stop-and-await phase (shutdown signalling
and observing the termination of the previous listener). -/
def isStopAct : Action → Bool
  | Action.sendShutdown => true
  | Action.oldTerminated => true
  | Action.oldPanicked => true
  | Action.oldAborted => true
  | _ => false

/-- Actions creating broker-side state: the connection and the session. -/
def isConnAct : Action → Bool
  | Action.connect => true
  | Action.createSession => true
  | _ => false

/-- Actions observing that the previous listener terminated: clean join,
panicked join, or forced abort. -/
def isTermAct : Action → Bool
  | Action.oldTerminated => true
  | Action.oldPanicked => true
  | Action.oldAborted => true
  | _ => false

/-- No stop-phase action occurs anywhere after a connection-creating
action: every stop action strictly precedes every connect or
create-session action of the trace. -/
def noStopAfterConn : List Action → Bool
  | [] => true
  | a :: t =>
      (if isConnAct a then t.all (fun b => !isStopAct b) else true) &&
      noStopAfterConn t

/-- Every connection-creating action of the trace is preceded by some
termination observation; the flag tracks whether one was seen. -/
def connAfterTerm (seen : Bool) : List Action → Bool
  | [] => true
  | a :: t =>
      if isConnAct a then seen && connAfterTerm seen t
      else connAfterTerm (seen || isTermAct a) t

/-- Number of closeSession actions in a trace. -/
def closeCount (tr : List Action) : Nat :=
  tr.countP (fun a => a = Action.closeSession)

/-- Number of invokeCallback actions in a trace. -/
def callbackCount (tr : List Action) : Nat :=
  tr.countP (fun a => match a with
    | Action.invokeCallback _ => true
    | _ => false)

/-- Value of the REGISTRATION_IN_PROGRESS flag after replaying the flag
writes of a trace on top of an initial value. -/
def regFlagAfter (b : Bool) : List Action → Bool
  | [] => b
  | Action.casAcquire :: t => regFlagAfter true t
  | Action.casRelease :: t => regFlagAfter false t
  | _ :: t => regFlagAfter b t

/-- The connect step or the session-create step of the environment,
as reached in program order, times out or errors. -/
def connectOrCreateFailed (env : Env) : Bool :=
  match env.connect with
  | StepResult.timeout => true
  | StepResult.failure _ => true
  | StepResult.ok =>
    match env.create with
    | StepResult.timeout => true
    | StepResult.failure _ => true
    | StepResult.ok => false

theorem noStopAfterConn_of_all_nonstop (l : List Action)
    (h : l.all (fun a => !isStopAct a) = true) :
    noStopAfterConn l = true := by
  induction l with
  | nil => rfl
  | cons a t ih =>
    simp only [List.all_cons, Bool.and_eq_true] at h
    simp only [noStopAfterConn, Bool.and_eq_true]
    refine ⟨?_, ih h.2⟩
    by_cases hc : isConnAct a = true
    · simp [hc, h.2]
    · simp [Bool.not_eq_true] at hc
      simp [hc]

theorem noStopAfterConn_append (xs ys : List Action)
    (hx : xs.all (fun a => !isConnAct a) = true)
    (hy : noStopAfterConn ys = true) :
    noStopAfterConn (xs ++ ys) = true := by
  induction xs with
  | nil => simpa using hy
  | cons a t ih =>
    simp only [List.all_cons, Bool.and_eq_true] at hx
    simp only [List.cons_append, noStopAfterConn, Bool.and_eq_true]
    refine ⟨?_, ih hx.2⟩
    have : isConnAct a = false := by simpa using hx.1
    simp [this]

theorem connAfterTerm_true (l : List Action) :
    connAfterTerm true l = true := by
  induction l with
  | nil => rfl
  | cons a t ih =>
    simp only [connAfterTerm]
    by_cases hc : isConnAct a = true
    · simp [hc, ih]
    · simp [Bool.not_eq_true] at hc
      simp [hc, ih]

theorem connAfterTerm_append_noconn (xs ys : List Action) (seen : Bool)
    (hx : xs.all (fun a => !isConnAct a) = true) :
    connAfterTerm seen (xs ++ ys) =
      connAfterTerm (seen || xs.any (fun a => isTermAct a)) ys := by
  induction xs generalizing seen with
  | nil => simp
  | cons a t ih =>
    simp only [List.all_cons, Bool.and_eq_true] at hx
    have ha : isConnAct a = false := by simpa using hx.1
    calc connAfterTerm seen (a :: t ++ ys)
        = connAfterTerm (seen || isTermAct a) (t ++ ys) := by
          simp [connAfterTerm, ha]
      _ = connAfterTerm ((seen || isTermAct a) ||
            t.any (fun b => isTermAct b)) ys := ih _ hx.2
      _ = connAfterTerm (seen || (a :: t).any (fun b => isTermAct b)) ys := by
          simp [Bool.or_assoc]

/-- The trace of the register body never contains a stop-phase action. -/
theorem registerBody_no_stop (s : MState) (env : Env) (id : String) :
    ((registerBody s env id).2.2).all (fun a => !isStopAct a) = true := by
  rcases env with ⟨oj, c, cr, b, r, sub, rit⟩
  cases c <;> cases cr <;> cases b <;> cases r <;> cases sub <;> cases rit <;>
    simp [registerBody, listenerStart, isStopAct]

/-- The stop-and-await trace never contains a connection-creating
action. -/
theorem stopTrace_no_conn (s : MState) (env : Env) :
    ((stopListenerAndWait s env).2).all (fun a => !isConnAct a) = true := by
  rcases s with ⟨pu, rip, tx, lh⟩
  rcases env with ⟨oj, c, cr, b, r, sub, rit⟩
  cases tx <;> cases lh <;> cases oj <;>
    simp [stopListenerAndWait, isConnAct]

/-- When a previous listener handle exists, the stop-and-await trace
contains a termination observation. -/
theorem stopTrace_has_term (s : MState) (env : Env)
    (h : s.listenerHandle = true) :
    ((stopListenerAndWait s env).2).any (fun a => isTermAct a) = true := by
  rcases s with ⟨pu, rip, tx, lh⟩
  rcases env with ⟨oj, c, cr, b, r, sub, rit⟩
  cases lh
  · cases h
  · cases tx <;> cases oj <;>
      simp [stopListenerAndWait, isTermAct]

theorem noStopAfterConn_cons (a : Action) (l : List Action)
    (ha : isConnAct a = false) (hl : noStopAfterConn l = true) :
    noStopAfterConn (a :: l) = true := by
  simp [noStopAfterConn, ha, hl]

theorem connAfterTerm_cons (a : Action) (l : List Action) (seen : Bool)
    (ha : isConnAct a = false)
    (hl : connAfterTerm (seen || isTermAct a) l = true) :
    connAfterTerm seen (a :: l) = true := by
  simpa [connAfterTerm, ha] using hl

/-- Shape of the register trace once both fast-path checks pass:
guard acquisition, the stop-and-await trace, the body trace, and the
guard release. -/
theorem register_trace_eq (s : MState) (env : Env) (id : String)
    (hpu : s.portalUnavailable = false)
    (hrip : s.registrationInProgress = false) :
    (register s env id).2.2 =
      Action.casAcquire ::
        ((stopListenerAndWait { s with registrationInProgress := true } env).2 ++
         ((registerBody
             (stopListenerAndWait { s with registrationInProgress := true }
               env).1 env id).2.2 ++
          [Action.casRelease])) := by
  simp [register, hpu, hrip, casRegistration]

/-- C1: within one register call, every stop-and-await action (shutdown
signal, observed termination or forced abort of the previous listener)
strictly precedes every broker connection or session creation in the
trace; and when a previous listener existed, a termination observation
occurs before any connection or session is created. -/
theorem register_stop_precedes_session_creation
    (s : MState) (env : Env) (id : String) :
    (noStopAfterConn (register s env id).2.2 &&
      (!s.listenerHandle ||
        connAfterTerm false (register s env id).2.2)) = true := by
  by_cases hpu : s.portalUnavailable = true
  · simp [register, hpu, noStopAfterConn, connAfterTerm]
  · replace hpu : s.portalUnavailable = false := by simpa using hpu
    by_cases hrip : s.registrationInProgress = true
    · simp [register, hpu, hrip, casRegistration, noStopAfterConn,
        connAfterTerm]
    · replace hrip : s.registrationInProgress = false := by simpa using hrip
      rw [register_trace_eq s env id hpu hrip, Bool.and_eq_true,
        Bool.or_eq_true]
      constructor
      · apply noStopAfterConn_cons Action.casAcquire _ rfl
        apply noStopAfterConn_append _ _ (stopTrace_no_conn _ _)
        apply noStopAfterConn_of_all_nonstop
        rw [List.all_append, Bool.and_eq_true]
        exact ⟨registerBody_no_stop _ _ _, by decide⟩
      · by_cases hlh : s.listenerHandle = true
        · right
          apply connAfterTerm_cons Action.casAcquire _ _ rfl
          rw [connAfterTerm_append_noconn _ _ _ (stopTrace_no_conn _ _)]
          rw [stopTrace_has_term _ env (by simpa using hlh)]
          simp [connAfterTerm_true]
        · left
          simpa using hlh

/-- Actions that do not write the REGISTRATION_IN_PROGRESS flag. -/
def noCasAct (a : Action) : Bool :=
  !(a = Action.casAcquire) && !(a = Action.casRelease)

theorem regFlagAfter_append (b : Bool) (l1 l2 : List Action) :
    regFlagAfter b (l1 ++ l2) = regFlagAfter (regFlagAfter b l1) l2 := by
  induction l1 generalizing b with
  | nil => rfl
  | cons a t ih => cases a <;> simp [regFlagAfter, ih]

theorem regFlagAfter_of_casFree (b : Bool) (l : List Action)
    (h : l.all noCasAct = true) : regFlagAfter b l = b := by
  induction l with
  | nil => rfl
  | cons a t ih =>
    simp only [List.all_cons, Bool.and_eq_true] at h
    have ha := h.1
    cases a <;> simp [noCasAct] at ha <;> simp [regFlagAfter, ih h.2]

/-- The trace of the register body never writes the in-progress flag. -/
theorem registerBody_no_cas (s : MState) (env : Env) (id : String) :
    ((registerBody s env id).2.2).all noCasAct = true := by
  rcases env with ⟨oj, c, cr, b, r, sub, rit⟩
  cases c <;> cases cr <;> cases b <;> cases r <;> cases sub <;> cases rit <;>
    simp [registerBody, listenerStart, noCasAct]

/-- The stop-and-await trace never writes the in-progress flag. -/
theorem stopTrace_no_cas (s : MState) (env : Env) :
    ((stopListenerAndWait s env).2).all noCasAct = true := by
  rcases s with ⟨pu, rip, tx, lh⟩
  rcases env with ⟨oj, c, cr, b, r, sub, rit⟩
  cases tx <;> cases lh <;> cases oj <;>
    simp [stopListenerAndWait, noCasAct]

theorem regFlag_held_inside (mid : List Action)
    (hmid : mid.all noCasAct = true) (k : Nat) (hk1 : 1 ≤ k)
    (hk2 : k < (Action.casAcquire ::
      (mid ++ [Action.casRelease])).length) :
    regFlagAfter false
      ((Action.casAcquire :: (mid ++ [Action.casRelease])).take k) = true := by
  obtain ⟨j, rfl⟩ : ∃ j, k = j + 1 := ⟨k - 1, by omega⟩
  simp only [List.take_succ_cons, regFlagAfter]
  have hj : j ≤ mid.length := by
    simp [List.length_append, List.length_cons] at hk2
    omega
  rw [List.take_append_of_le_length hj]
  apply regFlagAfter_of_casFree
  rw [List.all_eq_true] at hmid ⊢
  exact fun a ha => hmid a (List.take_subset j mid ha)

/-- A closed run showing claim C2 false as stated: starting from a state
in which a concurrent register call holds the in-progress flag (and the
sticky flag is clear), a second register call completes with the
in-progress rejection, yet after this call completes the flag is still
true, and at no point of this call was the flag set by it (its trace is
empty).  So neither the flag is true for the entire duration of every
call, nor is it false after every call completes. -/
theorem register_flag_claim_counterexample :
    (register (MState.mk false true false false)
        (Env.mk JoinOutcome.clean StepResult.ok StepResult.ok StepResult.ok
          (RespResult.ok [("record-toggle", "Alt+R")]) SubResult.ok true)
        "record-toggle").1 = RegOutcome.errInProgress ∧
    (register (MState.mk false true false false)
        (Env.mk JoinOutcome.clean StepResult.ok StepResult.ok StepResult.ok
          (RespResult.ok [("record-toggle", "Alt+R")]) SubResult.ok true)
        "record-toggle").2.1.registrationInProgress = true := by
  constructor <;> rfl

/-- C2 (amended): a register call that passes the sticky-flag check and
wins the compare-and-set holds the in-progress flag from its first
action to its last: its trace starts by setting the flag, every proper
prefix of length at least one leaves the flag true, the full trace
leaves it false, and the final state has the flag cleared.  A call
rejected by either preliminary check leaves the state unchanged and
performs no action (so it neither holds nor clears the flag). -/
theorem register_flag_discipline (s : MState) (env : Env) (id : String) :
    (s.portalUnavailable = false → s.registrationInProgress = false →
      (register s env id).2.1.registrationInProgress = false ∧
      regFlagAfter false (register s env id).2.2 = false ∧
      ∀ k, 1 ≤ k → k < (register s env id).2.2.length →
        regFlagAfter false ((register s env id).2.2.take k) = true) ∧
    ((s.portalUnavailable = true ∨ s.registrationInProgress = true) →
      (register s env id).2.1 = s ∧ (register s env id).2.2 = []) := by
  constructor
  · intro hpu hrip
    have htr := register_trace_eq s env id hpu hrip
    have hmid :
        ((stopListenerAndWait { s with registrationInProgress := true }
            env).2 ++
          (registerBody
            (stopListenerAndWait { s with registrationInProgress := true }
              env).1 env id).2.2).all noCasAct = true := by
      rw [List.all_append, Bool.and_eq_true]
      exact ⟨stopTrace_no_cas _ _, registerBody_no_cas _ _ _⟩
    refine ⟨?_, ?_, ?_⟩
    · simp [register, hpu, hrip, casRegistration]
    · rw [htr]
      simp only [regFlagAfter]
      rw [regFlagAfter_append, regFlagAfter_append]
      rfl
    · intro k hk1 hk2
      rw [htr, ← List.append_assoc] at hk2 ⊢
      exact regFlag_held_inside _ hmid k hk1 hk2
  · rintro (hpu | hrip)
    · simp [register, hpu]
    · by_cases hpu : s.portalUnavailable = true
      · simp [register, hpu]
      · replace hpu : s.portalUnavailable = false := by simpa using hpu
        simp [register, hpu, hrip, casRegistration]

/-- A concrete environment in which every broker step succeeds and the
broker binds the requested id to the trigger Alt+R. -/
def envAllOk : Env :=
  { oldJoin := JoinOutcome.clean
    connect := StepResult.ok
    create := StepResult.ok
    bind := StepResult.ok
    response := RespResult.ok [("record-toggle", "Alt+R")]
    sub := SubResult.ok
    readyInTime := true }

/-- C2 amended, witnessed at a fresh manager state with a live previous
listener: the flag is true three actions into the call and false after
the full trace. -/
theorem register_flag_discipline_witness :
    regFlagAfter false
      ((register (MState.mk false false true true) envAllOk
          "record-toggle").2.2.take 3) = true ∧
    regFlagAfter false
      (register (MState.mk false false true true) envAllOk
        "record-toggle").2.2 = false := by
  refine ⟨((register_flag_discipline (MState.mk false false true true)
      envAllOk "record-toggle").1 rfl rfl).2.2 3 (by decide) (by decide),
    ((register_flag_discipline (MState.mk false false true true)
      envAllOk "record-toggle").1 rfl rfl).2.1⟩

/-- C3: when the sticky portal-unavailable flag is set, register fails
immediately with the portal-unavailable error, performs no action at all
(empty trace: no connection, session, bind or listener activity) and
leaves the state, in particular the sticky flag, unchanged; the explicit
reset operation clears the flag. -/
theorem register_sticky_fast_fail (s : MState) (env : Env) (id : String)
    (h : s.portalUnavailable = true) :
    register s env id = (RegOutcome.errPortalUnavailable, s, []) ∧
    (resetPortalState s).portalUnavailable = false := by
  constructor
  · simp [register, h]
  · rfl

/-- C3 witnessed at a sticky state. -/
theorem register_sticky_fast_fail_witness :
    register (MState.mk true false false false) envAllOk "record-toggle" =
      (RegOutcome.errPortalUnavailable, MState.mk true false false false,
        []) ∧
    (resetPortalState
      (MState.mk true false false false)).portalUnavailable = false :=
  register_sticky_fast_fail (MState.mk true false false false) envAllOk
    "record-toggle" rfl

/-- C4: the sticky flag after register equals its prior value joined
with reached-and-failed connect or session-create; hence a clear flag
becomes set exactly when the connect step or the create step times out
or errors (never on bind timeout, bind failure or user cancellation,
whose environments have both steps succeeding), a set flag is never
cleared by register, and the explicit reset clears it. -/
theorem register_sticky_transitions (s : MState) (env : Env) (id : String) :
    (register s env id).2.1.portalUnavailable =
      (s.portalUnavailable ||
        (!s.registrationInProgress && connectOrCreateFailed env)) ∧
    (resetPortalState s).portalUnavailable = false := by
  refine ⟨?_, rfl⟩
  rcases s with ⟨pu, rip, tx, lh⟩
  rcases env with ⟨oj, c, cr, b, r, sub, rit⟩
  cases pu <;> cases rip <;> cases c <;> cases cr <;> cases b <;>
    cases r <;> cases sub <;> cases rit <;>
    simp [register, registerBody, casRegistration, stopListenerAndWait,
      connectOrCreateFailed]

/-- C5: with the in-progress flag held by a concurrent call and the
sticky flag clear, register fails immediately with the in-progress
rejection, produces no action (no listener, connection or session
activity) and leaves the state unchanged; moreover the compare-and-set
itself is exclusive: from a free flag the first acquisition succeeds and
a second acquisition on the resulting state fails and changes nothing,
so two concurrent calls never both pass the check. -/
theorem register_concurrent_rejection (s t : MState) (env : Env)
    (id : String) (h1 : s.registrationInProgress = true)
    (h2 : s.portalUnavailable = false) :
    register s env id = (RegOutcome.errInProgress, s, []) ∧
    (t.registrationInProgress = false →
      (casRegistration t).1 = true ∧
      casRegistration (casRegistration t).2 =
        (false, (casRegistration t).2)) := by
  constructor
  · simp [register, h2, h1, casRegistration]
  · intro ht
    constructor
    · simp [casRegistration, ht]
    · simp [casRegistration, ht]

/-- C5 witnessed: a manager whose flag is held rejects the call, and the
compare-and-set sequence from a free state admits only one winner. -/
theorem register_concurrent_rejection_witness :
    register (MState.mk false true false false) envAllOk "record-toggle" =
      (RegOutcome.errInProgress, MState.mk false true false false, []) ∧
    ((casRegistration (MState.mk false false false false)).1 = true ∧
      casRegistration
          (casRegistration (MState.mk false false false false)).2 =
        (false,
          (casRegistration (MState.mk false false false false)).2)) := by
  have h := register_concurrent_rejection (MState.mk false true false false)
    (MState.mk false false false false) envAllOk "record-toggle" rfl rfl
  exact ⟨h.1, h.2 rfl⟩

/-- Number of activation events whose id equals the registered id among
the events the loop actually processes: those arriving strictly before
the first shutdown resolution. -/
def matchingCount (regId : String) (msgs : List Msg) : Nat :=
  (msgs.takeWhile fun m => !(m = Msg.shutdown)).countP
    (fun m => m = Msg.event regId)

theorem processLoop_callback_count (regId : String) (msgs : List Msg) :
    callbackCount (processLoop regId msgs).1 = matchingCount regId msgs := by
  induction msgs with
  | nil => rfl
  | cons m rest ih =>
    cases m with
    | event id =>
      by_cases h : id = regId
      · simp [processLoop, matchingCount, callbackCount, h,
          List.takeWhile_cons, List.countP_cons, List.countP_append] at ih ⊢
        omega
      · simp [processLoop, matchingCount, callbackCount, h,
          List.takeWhile_cons, List.countP_cons, List.countP_append] at ih ⊢
        exact ih
    | shutdown => rfl

theorem processLoop_callback_ids (regId : String) (msgs : List Msg) :
    ((processLoop regId msgs).1.all
      (fun a => match a with
        | Action.invokeCallback i => i = regId
        | _ => true)) = true := by
  induction msgs with
  | nil => rfl
  | cons m rest ih =>
    cases m with
    | event id =>
      by_cases h : id = regId
      · simp [processLoop, h, List.all_append] at ih ⊢
        exact ih
      · simp [processLoop, h, List.all_append] at ih ⊢
        exact ih
    | shutdown => rfl

theorem processLoop_no_close (regId : String) (msgs : List Msg) :
    closeCount (processLoop regId msgs).1 = 0 := by
  induction msgs with
  | nil => rfl
  | cons m rest ih =>
    cases m with
    | event id =>
      by_cases h : id = regId <;>
        simp [processLoop, closeCount, h, List.countP_cons,
          List.countP_append] at ih ⊢ <;>
        exact ih
    | shutdown => rfl

theorem processLoop_finishes_iff (regId : String) (msgs : List Msg) :
    (processLoop regId msgs).2 = true ↔ Msg.shutdown ∈ msgs := by
  induction msgs with
  | nil => simp [processLoop]
  | cons m rest ih =>
    cases m with
    | event id => simp [processLoop, ih]
    | shutdown => simp [processLoop]

/-- C6: a running listener dispatches its callback exactly once for
every processed activation event whose shortcut id equals the id it was
registered for, and every callback dispatch in its whole trace carries
the registered id, so an event for a different id never invokes the
callback. -/
theorem listener_event_filtering (regId : String) (msgs : List Msg) :
    callbackCount (listenerRun regId SubResult.ok msgs).1 =
      matchingCount regId msgs ∧
    ((listenerRun regId SubResult.ok msgs).1.all
      (fun a => match a with
        | Action.invokeCallback i => i = regId
        | _ => true)) = true := by
  constructor
  · have h := processLoop_callback_count regId msgs
    cases hfin : (processLoop regId msgs).2 <;>
      simp [listenerRun, listenerStart, callbackCount, hfin,
        List.countP_append, List.countP_cons] at h ⊢ <;>
      simpa [callbackCount] using h
  · have h := processLoop_callback_ids regId msgs
    cases hfin : (processLoop regId msgs).2 <;>
      simp [listenerRun, listenerStart, hfin, List.all_append] at h ⊢ <;>
      exact h

theorem listenerRun_ok_closeCount (regId : String) (msgs : List Msg) :
    closeCount (listenerRun regId SubResult.ok msgs).1 =
      (if (processLoop regId msgs).2 = true then 1 else 0) := by
  have hno := processLoop_no_close regId msgs
  simp only [closeCount] at hno
  cases hfin : (processLoop regId msgs).2
  · simp only [listenerRun, listenerStart, hfin, closeCount,
      List.countP_append, Bool.false_eq_true, if_false, List.append_nil]
    rw [hno]
    decide
  · simp only [listenerRun, listenerStart, hfin, closeCount,
      List.countP_append, if_true]
    rw [hno]
    decide

/-- C7: over the whole lifetime of one listener task the session close
is invoked at most once; whenever the task finishes on its own it is
invoked exactly once; and the task does finish on both graceful paths,
namely subscription failure before the loop and a shutdown resolution
inside the loop.  Only an abort, which truncates the task from outside,
can prevent the close. -/
theorem listener_close_on_exit (regId : String) (sub : SubResult)
    (msgs : List Msg) :
    closeCount (listenerRun regId sub msgs).1 ≤ 1 ∧
    ((listenerRun regId sub msgs).2 = true →
      closeCount (listenerRun regId sub msgs).1 = 1) ∧
    (∀ e, sub = SubResult.fail e →
      (listenerRun regId sub msgs).2 = true) ∧
    (sub = SubResult.ok → Msg.shutdown ∈ msgs →
      (listenerRun regId sub msgs).2 = true) := by
  have hno := processLoop_no_close regId msgs
  cases sub with
  | fail e =>
    refine ⟨?_, ?_, ?_, ?_⟩
    · simp [listenerRun, listenerStart, closeCount]
    · intro _
      simp [listenerRun, listenerStart, closeCount]
    · intro e2 h
      simp [listenerRun]
    · intro h
      cases h
  | ok =>
    have hcc := listenerRun_ok_closeCount regId msgs
    refine ⟨?_, ?_, ?_, ?_⟩
    · rw [hcc]
      cases (processLoop regId msgs).2 <;> simp
    · intro hfin
      have hp : (processLoop regId msgs).2 = true := by
        simpa [listenerRun] using hfin
      rw [hcc, hp]
      rfl
    · intro e h
      cases h
    · intro _ hmem
      have := (processLoop_finishes_iff regId msgs).2 hmem
      simp [listenerRun, this]

/-- C7 witnessed on both graceful paths: subscription failure closes the
session exactly once, and a shutdown inside the loop closes it exactly
once. -/
theorem listener_close_on_exit_witness :
    closeCount (listenerRun "record-toggle" (SubResult.fail "boom")
        [Msg.event "x"]).1 = 1 ∧
    closeCount (listenerRun "record-toggle" SubResult.ok
        [Msg.event "x", Msg.shutdown]).1 = 1 := by
  constructor
  · exact (listener_close_on_exit "record-toggle" (SubResult.fail "boom")
      [Msg.event "x"]).2.1
      ((listener_close_on_exit "record-toggle" (SubResult.fail "boom")
        [Msg.event "x"]).2.2.1 "boom" rfl)
  · exact (listener_close_on_exit "record-toggle" SubResult.ok
      [Msg.event "x", Msg.shutdown]).2.1
      ((listener_close_on_exit "record-toggle" SubResult.ok
        [Msg.event "x", Msg.shutdown]).2.2.2 rfl (by simp))

/-- C10: when the message sequence contains no shutdown resolution, the
listener whose subscription succeeded does not finish and never invokes
the session close: exhaustion of the activation stream alone leaves the
task suspended in its loop, still awaiting the shutdown signal. -/
theorem listener_stream_exhaustion_keeps_waiting (regId : String)
    (msgs : List Msg) (h : Msg.shutdown ∉ msgs) :
    (listenerRun regId SubResult.ok msgs).2 = false ∧
    closeCount (listenerRun regId SubResult.ok msgs).1 = 0 := by
  have hfin : (processLoop regId msgs).2 = false := by
    by_contra hc
    simp [Bool.not_eq_true] at hc
    exact h ((processLoop_finishes_iff regId msgs).1 hc)
  constructor
  · simp [listenerRun, hfin]
  · rw [listenerRun_ok_closeCount regId msgs, hfin]
    rfl

/-- C10 witnessed: two events and then stream exhaustion, no shutdown. -/
theorem listener_stream_exhaustion_keeps_waiting_witness :
    (listenerRun "record-toggle" SubResult.ok
        [Msg.event "other-id", Msg.event "record-toggle"]).2 = false ∧
    closeCount (listenerRun "record-toggle" SubResult.ok
        [Msg.event "other-id", Msg.event "record-toggle"]).1 = 0 :=
  listener_stream_exhaustion_keeps_waiting "record-toggle"
    [Msg.event "other-id", Msg.event "record-toggle"] (by simp)

/-- The all-ok environment except that the listener subscription to the
activation stream fails with the error boom. -/
def envSubFail : Env :=
  { envAllOk with sub := SubResult.fail "boom" }

/-- C8: when the session was bound (connect, create, bind and response
all succeeded) but the listener fails to open the activation stream, and
the readiness handshake resolves in time, register surfaces exactly the
subscription-failure error; the session close appears in the trace of
the register call (so the close is invoked before the call returns); and
the listener task, independently of any messages, produces only the
subscribe, failed-readiness, close and termination actions: it never
enters its main loop. -/
theorem register_subscription_failure (s : MState) (env : Env)
    (id e : String) (bounds : List (String × String))
    (hpu : s.portalUnavailable = false)
    (hrip : s.registrationInProgress = false)
    (hc : env.connect = StepResult.ok) (hcr : env.create = StepResult.ok)
    (hb : env.bind = StepResult.ok)
    (hr : env.response = RespResult.ok bounds)
    (hsub : env.sub = SubResult.fail e)
    (hready : env.readyInTime = true) :
    (register s env id).1 = RegOutcome.errListenerSub e ∧
    Action.closeSession ∈ (register s env id).2.2 ∧
    ∀ msgs : List Msg, listenerRun id (SubResult.fail e) msgs =
      ([Action.subscribe, Action.readySent false, Action.closeSession,
        Action.listenerTerminated], true) := by
  rcases env with ⟨oj, c, cr, b, r, sub, rit⟩
  simp only at hc hcr hb hr hsub hready
  subst hc
  subst hcr
  subst hb
  subst hr
  subst hsub
  subst hready
  refine ⟨?_, ?_, ?_⟩
  · simp [register, hpu, hrip, casRegistration, registerBody]
  · rw [register_trace_eq s _ id hpu hrip]
    simp [registerBody, listenerStart]
  · intro msgs
    rfl

/-- C8 witnessed at a fresh manager and the subscription-failure
environment. -/
theorem register_subscription_failure_witness :
    (register (MState.mk false false false false) envSubFail
        "record-toggle").1 = RegOutcome.errListenerSub "boom" ∧
    Action.closeSession ∈
      (register (MState.mk false false false false) envSubFail
        "record-toggle").2.2 ∧
    listenerRun "record-toggle" (SubResult.fail "boom") [] =
      ([Action.subscribe, Action.readySent false, Action.closeSession,
        Action.listenerTerminated], true) := by
  have h := register_subscription_failure
    (MState.mk false false false false) envSubFail "record-toggle" "boom"
    [("record-toggle", "Alt+R")] rfl rfl rfl rfl rfl rfl rfl rfl
  exact ⟨h.1, h.2.1, h.2.2 []⟩

/-- C9: unregister sends at most one best-effort shutdown signal (one
try_send exactly when a sender was stored), never awaits, aborts or
closes anything itself (its trace contains no termination observation
and no session close), clears both bookkeeping slots, and leaves the
sticky portal-unavailable flag (and the in-progress flag) unchanged. -/
theorem unregister_spec (s : MState) :
    (unregister s).1.shutdownTx = false ∧
    (unregister s).1.listenerHandle = false ∧
    (unregister s).1.portalUnavailable = s.portalUnavailable ∧
    (unregister s).1.registrationInProgress = s.registrationInProgress ∧
    (unregister s).2 =
      (if s.shutdownTx then [Action.sendShutdown] else []) ∧
    (unregister s).2.all
      (fun a => !isTermAct a && !(a = Action.closeSession)) = true := by
  rcases s with ⟨pu, rip, tx, lh⟩
  cases tx <;> simp [unregister, stopListener, isTermAct]

end Wayland
